import Mathlib

/-!
Shallow embedding of `src/js/main.js` of the PBB uplink simulator.

The program loads three CSV tables (barangays, cities, provinces), normalizes
rows (`normalizeId`, `toNum`), filters them, builds id-indexed lookup maps
(`cityById`, `provinceById`), creates map markers and connector lines, and on
every checkbox change recomputes connector-line visibility
(`applyVisibilityRules`) and marker icons (`updateMarkerStyles`).

Modelling conventions:
* A raw CSV cell is `Option String` (`none` = the column was absent, i.e. the
  JS value `undefined`).
* The JS builtin `Number` applied to a string is modelled by
  `jsStringToNumber`, restricted to decimal literals and `Infinity` (the hex,
  octal and binary literal forms and float64 rounding/underflow are not
  modelled; coordinate data is plain decimal, and the program only ever
  consults presence and zero-ness of the parsed value). Finite values are
  exact rationals.
* JS `Map` objects keyed by id strings are modelled as functions
  `String → Option _` built by `foldl` (later `set` wins, as in JS).
* DOM / Leaflet state is reduced to the data the rules read and write: the
  set of visible connector lines becomes `VisState`, marker icons become the
  `Icon` inductive.
-/

namespace Uplink

/-- A JS number as classified by `Number.isFinite`: NaN, an infinity, or a
finite value (modelled as an exact rational). -/
inductive JsNum where
  | nan : JsNum
  | inf : Bool → JsNum
  | finite : Rat → JsNum
deriving DecidableEq

/-- Decimal digit test. -/
def digChar (c : Char) : Bool := '0' ≤ c && c ≤ '9'

/-- Value of a list of decimal digit characters. -/
def digitsToNat (l : List Char) : Nat :=
  l.foldl (fun a c => a * 10 + (c.toNat - 48)) 0

/-- Split a character list into its leading run of digits and the rest. -/
def spanDigits (l : List Char) : List Char × List Char :=
  (l.takeWhile digChar, l.dropWhile digChar)

/-- Parse the mantissa part of a decimal literal (`123`, `123.45`, `.45`,
`123.`). Its exact value is `num / 10 ^ scale`; this pair and the unconsumed
rest are returned. -/
def parseDecMantissa (l : List Char) : Option ((Nat × Nat) × List Char) :=
  let ip := (spanDigits l).1
  let r1 := (spanDigits l).2
  match r1 with
  | '.' :: r2 =>
    let fp := (spanDigits r2).1
    let r3 := (spanDigits r2).2
    if ip.isEmpty && fp.isEmpty then none
    else some ((digitsToNat ip * 10 ^ fp.length + digitsToNat fp, fp.length), r3)
  | _ => if ip.isEmpty then none else some ((digitsToNat ip, 0), r1)

/-- Parse an optional exponent part that must consume the whole rest of the
literal; `[]` means exponent `0`. -/
def parseExpPart : List Char → Option Int
  | [] => some 0
  | c :: r =>
    if c = 'e' || c = 'E' then
      let sr : Int × List Char :=
        match r with
        | '+' :: t => (1, t)
        | '-' :: t => (-1, t)
        | t => (1, t)
      let ds := (spanDigits sr.2).1
      let rest := (spanDigits sr.2).2
      if ds.isEmpty || !rest.isEmpty then none
      else some (sr.1 * (digitsToNat ds : Int))
    else none

/-- The exact rational `sgn · num · 10 ^ e`, built with integer arithmetic
and one `mkRat` so that it evaluates by kernel reduction. -/
def decValue (neg : Bool) (num : Nat) (e : Int) : Rat :=
  let n : Int := if neg then -(num : Int) else (num : Int)
  if 0 ≤ e then mkRat (n * (10 : Int) ^ e.toNat) 1
  else mkRat n ((10 : Nat) ^ (-e).toNat)

/-- JS `String.prototype.trim`, modelled on the character list (whitespace
as in `Char.isWhitespace`; the rarer Unicode space characters JS also trims
are not modelled). -/
def jsTrim (s : String) : String :=
  ⟨(((s.data.dropWhile Char.isWhitespace).reverse).dropWhile Char.isWhitespace).reverse⟩

/-- Model of the JS builtin `Number` on a string: trim, empty string is `0`,
otherwise an optionally signed decimal literal or `Infinity`; anything else
is NaN. -/
def jsStringToNumber (s : String) : JsNum :=
  let t := jsTrim s
  if t.isEmpty then .finite 0
  else
    let sl : Bool × List Char :=
      match t.toList with
      | '-' :: r => (true, r)
      | '+' :: r => (false, r)
      | l => (false, l)
    let neg := sl.1
    let l := sl.2
    if l = "Infinity".toList then .inf !neg
    else
      match parseDecMantissa l with
      | none => .nan
      | some ((num, scale), rest) =>
        match parseExpPart rest with
        | none => .nan
        | some e => .finite (decValue neg num (e - (scale : Int)))

/-- JS `Number` on a raw CSV cell: an absent cell (`undefined`) is NaN. -/
def jsToNumber : Option String → JsNum
  | none => .nan
  | some s => jsStringToNumber s

/-- `toNum` from main.js: `Number(x)` when finite, otherwise `null`. -/
def toNum (x : Option String) : Option Rat :=
  match jsToNumber x with
  | .finite q => some q
  | _ => none

/-- `normalizeId` from main.js: trim `(x ?? "")`; an empty result is `null`. -/
def normalizeId (x : Option String) : Option String :=
  let s := jsTrim (x.getD "")
  if s.isEmpty then none else some s

/-- JS truthiness of an id field (`null` and `""` are falsy). -/
def idTruthy : Option String → Bool
  | none => false
  | some s => !s.isEmpty

/-- JS truthiness of a parsed numeric field (`null`, `0` and `-0` are falsy;
NaN never occurs because `toNum` maps it to `null`). -/
def numTruthy : Option Rat → Bool
  | none => false
  | some q => q != 0

/-- A raw row of Barangays.csv (each cell may be absent). -/
structure RawBarangayRow where
  brgy_id : Option String
  barangay : Option String
  lat : Option String
  lon : Option String
  city : Option String
  city_id : Option String
deriving DecidableEq

/-- A raw row of Cities.csv. -/
structure RawCityRow where
  city : Option String
  city_id : Option String
  lat : Option String
  lon : Option String
  province : Option String
  province_id : Option String
deriving DecidableEq

/-- A raw row of Provinces.csv. -/
structure RawProvinceRow where
  province : Option String
  province_id : Option String
  lat : Option String
  lon : Option String
deriving DecidableEq

/-- A normalized barangay record. -/
structure Barangay where
  brgy_id : Option String
  city_id : Option String
  barangay : String
  city : String
  lat : Option Rat
  lon : Option Rat
deriving DecidableEq

/-- A normalized city record. -/
structure City where
  city_id : Option String
  province_id : Option String
  city : String
  province : String
  lat : Option Rat
  lon : Option Rat
deriving DecidableEq

/-- A normalized province record. -/
structure Province where
  province_id : Option String
  province : String
  lat : Option Rat
  lon : Option Rat
deriving DecidableEq

/-- Per-row normalization of a barangay row (main.js `barangaysAll` map step). -/
def normalizeBarangay (r : RawBarangayRow) : Barangay :=
  { brgy_id := normalizeId r.brgy_id
    city_id := normalizeId r.city_id
    barangay := jsTrim (r.barangay.getD "")
    city := jsTrim (r.city.getD "")
    lat := toNum r.lat
    lon := toNum r.lon }

/-- Per-row normalization of a city row (main.js `citiesAll` map step). -/
def normalizeCity (r : RawCityRow) : City :=
  { city_id := normalizeId r.city_id
    province_id := normalizeId r.province_id
    city := jsTrim (r.city.getD "")
    province := jsTrim (r.province.getD "")
    lat := toNum r.lat
    lon := toNum r.lon }

/-- Per-row normalization of a province row (main.js `provincesAll` map step). -/
def normalizeProvince (r : RawProvinceRow) : Province :=
  { province_id := normalizeId r.province_id
    province := jsTrim (r.province.getD "")
    lat := toNum r.lat
    lon := toNum r.lon }

/-- main.js `barangaysAll`: normalize, then keep rows with
`r.brgy_id && r.city_id && r.lat && r.lon` (JS truthiness). -/
def barangaysAll (rows : List RawBarangayRow) : List Barangay :=
  (rows.map normalizeBarangay).filter
    (fun r => idTruthy r.brgy_id && idTruthy r.city_id && numTruthy r.lat && numTruthy r.lon)

/-- main.js `citiesAll`: normalize, then keep rows with `r.city_id` truthy. -/
def citiesAll (rows : List RawCityRow) : List City :=
  (rows.map normalizeCity).filter (fun r => idTruthy r.city_id)

/-- main.js `provincesAll`: normalize, then keep rows with `r.province_id`
truthy. -/
def provincesAll (rows : List RawProvinceRow) : List Province :=
  (rows.map normalizeProvince).filter (fun r => idTruthy r.province_id)

/-- The loaded dataset: the three normalized, filtered row lists (main.js
`barangays` / `cities` / `provinces`). -/
structure Data where
  barangays : List Barangay
  cities : List City
  provinces : List Province
deriving DecidableEq

/-- One guarded `Map.set` step of the `cityById` / `provinceById` build
loops: when the row passes the `ok` guard, store it under its key,
overwriting any earlier entry. -/
def jsMapSet {α : Type} (key : α → Option String) (ok : α → Bool)
    (m : String → Option α) (a : α) (i : String) : Option α :=
  if ok a then
    if some i = key a then some a else m i
  else m i

/-- A JS `Map` built by iterating `set` over a row list (later rows win). -/
def jsMapOf {α : Type} (key : α → Option String) (ok : α → Bool)
    (l : List α) : String → Option α :=
  l.foldl (jsMapSet key ok) (fun _ => none)

/-- main.js `cityById`: a `Map` over `citiesAll` holding only rows with
coordinates, keyed by `city_id`; a later `set` overwrites an earlier one. -/
def cityById (cities : List City) : String → Option City :=
  jsMapOf (fun c => c.city_id) (fun c => c.lat.isSome && c.lon.isSome) cities

/-- main.js `provinceById`: a `Map` over `provincesAll` holding only rows
with coordinates, keyed by `province_id`. -/
def provinceById (provinces : List Province) : String → Option Province :=
  jsMapOf (fun p => p.province_id) (fun p => p.lat.isSome && p.lon.isSome) provinces

/-- main.js `barangaysByCity.get cid`: the barangays of the working set whose
`city_id` equals the key (grouping preserves list order). -/
def barangaysByCity (barangays : List Barangay) (cid : String) : List Barangay :=
  barangays.filter (fun b => b.city_id == some cid)

/-- Whether the barangay→city link creation loop in `addMarkersAndLinks`
creates a line for this barangay row: it needs coordinates, a truthy
`city_id`, and a `cityById` hit with coordinates. -/
def brgyLineFromRow (cities : List City) (b : Barangay) : Bool :=
  b.lat.isSome && b.lon.isSome &&
    (match b.city_id with
     | none => false
     | some cid =>
       !cid.isEmpty &&
         (match cityById cities cid with
          | none => false
          | some c => c.lat.isSome && c.lon.isSome))

/-- Whether the city→province link creation loop creates a line for this city
row: coordinates, a truthy `province_id`, and a `provinceById` hit with
coordinates. -/
def cityLineFromRow (provinces : List Province) (c : City) : Bool :=
  c.lat.isSome && c.lon.isSome &&
    (match c.province_id with
     | none => false
     | some pid =>
       !pid.isEmpty &&
         (match provinceById provinces pid with
          | none => false
          | some p => p.lat.isSome && p.lon.isSome))

/-- Whether `linkBrgyToCity` has a line under key `id` (some barangay row of
the working set with that `brgy_id` created a line). -/
def hasBrgyLink (D : Data) (id : String) : Bool :=
  D.barangays.any (fun b => b.brgy_id == some id && brgyLineFromRow D.cities b)

/-- Whether `linkCityToProv` has a line under key `id`. -/
def hasCityLink (D : Data) (id : String) : Bool :=
  D.cities.any (fun c => c.city_id == some id && cityLineFromRow D.provinces c)

/-- The mutable `enabled` maps of main.js: one `Map` (id → bool) per node
kind, modelled as functions (`none` = the id was never set). -/
structure EnabledState where
  province : String → Option Bool
  city : String → Option Bool
  barangay : String → Option Bool

/-- main.js `getEnabled` on one map: `enabled.get(id) !== false`, i.e. an id
that was never set defaults to true. -/
def jsGetEnabled (m : String → Option Bool) (id : String) : Bool :=
  m id != some false

/-- The three node kinds of the hierarchy. -/
inductive NodeKind where
  | province : NodeKind
  | city : NodeKind
  | barangay : NodeKind
deriving DecidableEq

/-- main.js `getEnabled(type, id)`. -/
def getEnabled (en : EnabledState) (k : NodeKind) (id : String) : Bool :=
  match k with
  | .province => jsGetEnabled en.province id
  | .city => jsGetEnabled en.city id
  | .barangay => jsGetEnabled en.barangay id

/-- main.js `setEnabled(type, id, val)`: store the boolean under the id in
the map of that kind. -/
def setEnabled (en : EnabledState) (k : NodeKind) (id : String) (v : Bool) : EnabledState :=
  match k with
  | .province => { en with province := fun i => if i = id then some v else en.province i }
  | .city => { en with city := fun i => if i = id then some v else en.city i }
  | .barangay => { en with barangay := fun i => if i = id then some v else en.barangay i }

/-- Which connector lines are currently shown on the map (`layerLinks`
membership), keyed like `linkBrgyToCity` / `linkCityToProv`. -/
structure VisState where
  brgyLineVisible : String → Bool
  cityLineVisible : String → Bool

/-- The `cityOn` factor of the barangay→city rule:
`b.city_id ? getEnabled("city", b.city_id) : true` (JS truthiness on the id). -/
def brgyCityOn (en : EnabledState) (b : Barangay) : Bool :=
  match b.city_id with
  | some cid => if cid.isEmpty then true else jsGetEnabled en.city cid
  | none => true

/-- The `provOn` factor of the city→province rule:
`c.province_id ? getEnabled("province", c.province_id) : true`. -/
def cityProvOn (en : EnabledState) (c : City) : Bool :=
  match c.province_id with
  | some pid => if pid.isEmpty then true else jsGetEnabled en.province pid
  | none => true

/-- main.js `applyVisibilityRules` as a transformer of the shown-lines state:
for each barangay→city line key, look up the first barangay with that id
(`barangays.find`), skip the line if none, else show it iff
`brgyOn && cityOn`; for each city→province line key, look up `cityById`,
skip if absent, else show iff `cityOn && provOn`. Keys without a line keep
their previous value (the loops never visit them). -/
def applyVisibilityRules (D : Data) (en : EnabledState) (vs : VisState) : VisState :=
  { brgyLineVisible := fun id =>
      if hasBrgyLink D id then
        match D.barangays.find? (fun x => x.brgy_id == some id) with
        | none => vs.brgyLineVisible id
        | some b => jsGetEnabled en.barangay id && brgyCityOn en b
      else vs.brgyLineVisible id
    cityLineVisible := fun id =>
      if hasCityLink D id then
        match cityById D.cities id with
        | none => vs.cityLineVisible id
        | some c => jsGetEnabled en.city id && cityProvOn en c
      else vs.cityLineVisible id }

/-- The marker icon constants of main.js. -/
inductive Icon where
  | provinceIconEnabled : Icon
  | cityIconEnabled : Icon
  | brgyIconEnabled : Icon
  | disabledAwesome : Icon
  | brgyIconDisabled : Icon
deriving DecidableEq

/-- main.js `updateMarkerStyles`, per marker: the icon set on the marker of
kind `k` with id `id` under enabled state `en`. -/
def updateMarkerIcon (en : EnabledState) (k : NodeKind) (id : String) : Icon :=
  match k with
  | .province => if jsGetEnabled en.province id then .provinceIconEnabled else .disabledAwesome
  | .city => if jsGetEnabled en.city id then .cityIconEnabled else .disabledAwesome
  | .barangay => if jsGetEnabled en.barangay id then .brgyIconEnabled else .brgyIconDisabled

/-- The normal (enabled) icon of each node kind, as set by
`addMarkersAndLinks` / `updateMarkerStyles`. -/
def enabledIconOf : NodeKind → Icon
  | .province => .provinceIconEnabled
  | .city => .cityIconEnabled
  | .barangay => .brgyIconEnabled

/-- The greyed-out (disabled) icon of each node kind per
`updateMarkerStyles`: cities and provinces share `disabledAwesome`,
barangays get their own `brgyIconDisabled`. -/
def disabledIconOf : NodeKind → Icon
  | .province => .disabledAwesome
  | .city => .disabledAwesome
  | .barangay => .brgyIconDisabled

/-- The city rows that produce a map marker (`addMarkersAndLinks` skips rows
whose `lat` or `lon` is `null`). -/
def cityMarkerRows (cities : List City) : List City :=
  cities.filter (fun c => c.lat.isSome && c.lon.isSome)

/-- The province rows that produce a map marker. -/
def provinceMarkerRows (provinces : List Province) : List Province :=
  provinces.filter (fun p => p.lat.isSome && p.lon.isSome)

/-- The barangay rows that produce a map marker. -/
def brgyMarkerRows (barangays : List Barangay) : List Barangay :=
  barangays.filter (fun b => b.lat.isSome && b.lon.isSome)

/-- `buildTree`: the cities listed under the tree node of a province with id
field `provId` (`cities.filter(c => c.province_id === provId)`). -/
def treeCitiesUnder (D : Data) (provId : Option String) : List City :=
  D.cities.filter (fun c => c.province_id == provId)

/-- A checkbox change: `setEnabled(type, id, cb.checked)`. -/
structure Toggle where
  kind : NodeKind
  id : String
  value : Bool

/-- Apply one checkbox change to the enabled maps. -/
def applyToggle (en : EnabledState) (t : Toggle) : EnabledState :=
  setEnabled en t.kind t.id t.value

/-- Apply a sequence of checkbox changes to the enabled maps. -/
def applyToggles (en : EnabledState) (ops : List Toggle) : EnabledState :=
  ops.foldl applyToggle en

/-- Run a sequence of checkbox-change events as the handler in `buildNodeRow`
does: each event updates the enabled maps and then reruns
`applyVisibilityRules`. -/
def runToggles (D : Data) (en : EnabledState) (vs : VisState) : List Toggle → EnabledState × VisState
  | [] => (en, vs)
  | t :: rest =>
    let en1 := applyToggle en t
    let vs1 := applyVisibilityRules D en1 vs
    runToggles D en1 vs1 rest

/-- The value the barangay→city rule computes for a line key, as a pure
function of the enabled maps (`false` placeholder when the lookup misses). -/
def brgyVal (D : Data) (en : EnabledState) (id : String) : Bool :=
  match D.barangays.find? (fun x => x.brgy_id == some id) with
  | none => false
  | some b => jsGetEnabled en.barangay id && brgyCityOn en b

/-- The value the city→province rule computes for a line key, as a pure
function of the enabled maps. -/
def cityVal (D : Data) (en : EnabledState) (id : String) : Bool :=
  match cityById D.cities id with
  | none => false
  | some c => jsGetEnabled en.city id && cityProvOn en c

section MapLemmas

variable {α : Type} {key : α → Option String} {ok : α → Bool}

lemma jsMapSet_spec {m : String → Option α} {a : α} {i : String} {x : α}
    (h : jsMapSet key ok m a i = some x) :
    (x = a ∧ key a = some i ∧ ok a = true) ∨ m i = some x := by
  unfold jsMapSet at h
  by_cases hok : ok a = true
  · rw [if_pos hok] at h
    by_cases hkey : some i = key a
    · rw [if_pos hkey] at h
      exact Or.inl ⟨(Option.some.inj h).symm, hkey.symm, hok⟩
    · rw [if_neg hkey] at h
      exact Or.inr h
  · rw [if_neg hok] at h
    exact Or.inr h

lemma jsMapOf_foldl_spec :
    ∀ (l : List α) (m : String → Option α) (i : String) (x : α),
      (l.foldl (jsMapSet key ok) m) i = some x →
      (x ∈ l ∧ key x = some i ∧ ok x = true) ∨ m i = some x := by
  intro l
  induction l with
  | nil => intro m i x h; exact Or.inr h
  | cons a rest ih =>
    intro m i x h
    rcases ih (jsMapSet key ok m a) i x h with hmem | hm
    · exact Or.inl ⟨List.mem_cons_of_mem _ hmem.1, hmem.2⟩
    · rcases jsMapSet_spec hm with ⟨hx, hki, hok⟩ | hm2
      · subst hx
        exact Or.inl ⟨List.mem_cons_self _ _, hki, hok⟩
      · exact Or.inr hm2

lemma jsMapOf_spec {l : List α} {i : String} {x : α}
    (h : jsMapOf key ok l i = some x) :
    x ∈ l ∧ key x = some i ∧ ok x = true := by
  rcases jsMapOf_foldl_spec l (fun _ => none) i x h with hres | hnone
  · exact hres
  · exact absurd hnone (by simp)

lemma jsMapSet_keeps {m : String → Option α} {a : α} {i : String}
    (h : ∃ x, m i = some x) : ∃ x, jsMapSet key ok m a i = some x := by
  unfold jsMapSet
  by_cases hok : ok a = true
  · rw [if_pos hok]
    by_cases hkey : some i = key a
    · exact ⟨a, by rw [if_pos hkey]⟩
    · obtain ⟨x, hx⟩ := h
      exact ⟨x, by rw [if_neg hkey]; exact hx⟩
  · rw [if_neg hok]
    exact h

lemma jsMapSet_sets {m : String → Option α} {a : α} {i : String}
    (hk : key a = some i) (hok : ok a = true) : jsMapSet key ok m a i = some a := by
  unfold jsMapSet
  rw [if_pos hok, if_pos hk.symm]

lemma jsMapOf_foldl_keeps :
    ∀ (l : List α) (m : String → Option α) (i : String),
      (∃ x, m i = some x) → ∃ x, (l.foldl (jsMapSet key ok) m) i = some x := by
  intro l
  induction l with
  | nil => intro m i h; exact h
  | cons a rest ih => intro m i h; exact ih _ i (jsMapSet_keeps h)

lemma jsMapOf_isSome :
    ∀ (l : List α) (m : String → Option α) (a : α) (i : String),
      a ∈ l → key a = some i → ok a = true →
      ∃ x, (l.foldl (jsMapSet key ok) m) i = some x := by
  intro l
  induction l with
  | nil => intro m a i h; exact absurd h (List.not_mem_nil a)
  | cons b rest ih =>
    intro m a i hmem hk hok
    rcases List.mem_cons.mp hmem with hab | hrest
    · subst hab
      exact jsMapOf_foldl_keeps rest _ i ⟨a, jsMapSet_sets hk hok⟩
    · exact ih _ a i hrest hk hok

end MapLemmas

lemma cityById_spec {cities : List City} {i : String} {c : City}
    (h : cityById cities i = some c) :
    c ∈ cities ∧ c.city_id = some i ∧ c.lat.isSome = true ∧ c.lon.isSome = true := by
  obtain ⟨hm, hk, hok⟩ := jsMapOf_spec h
  exact ⟨hm, hk, Bool.and_elim_left hok, Bool.and_elim_right hok⟩

lemma provinceById_spec {provinces : List Province} {i : String} {p : Province}
    (h : provinceById provinces i = some p) :
    p ∈ provinces ∧ p.province_id = some i ∧ p.lat.isSome = true ∧ p.lon.isSome = true := by
  obtain ⟨hm, hk, hok⟩ := jsMapOf_spec h
  exact ⟨hm, hk, Bool.and_elim_left hok, Bool.and_elim_right hok⟩

lemma cityById_isSome {cities : List City} {c : City} {i : String}
    (hmem : c ∈ cities) (hk : c.city_id = some i)
    (hla : c.lat.isSome = true) (hlo : c.lon.isSome = true) :
    ∃ x, cityById cities i = some x :=
  jsMapOf_isSome cities _ c i hmem hk (by rw [hla, hlo]; rfl)

lemma hasBrgyLink_find?_isSome {D : Data} {id : String}
    (h : hasBrgyLink D id = true) :
    ∃ b, D.barangays.find? (fun x => x.brgy_id == some id) = some b := by
  obtain ⟨b, hmem, hp⟩ := List.any_eq_true.mp h
  have hid : (b.brgy_id == some id) = true := Bool.and_elim_left hp
  have : (D.barangays.find? (fun x => x.brgy_id == some id)).isSome :=
    List.find?_isSome.mpr ⟨b, hmem, hid⟩
  exact Option.isSome_iff_exists.mp this

lemma hasCityLink_cityById_isSome {D : Data} {id : String}
    (h : hasCityLink D id = true) :
    ∃ c, cityById D.cities id = some c := by
  obtain ⟨c, hmem, hp⟩ := List.any_eq_true.mp h
  have hid : c.city_id = some id := by
    have := Bool.and_elim_left hp
    exact beq_iff_eq.mp this
  have hline : cityLineFromRow D.provinces c = true := Bool.and_elim_right hp
  unfold cityLineFromRow at hline
  have hla : c.lat.isSome = true := Bool.and_elim_left (Bool.and_elim_left hline)
  have hlo : c.lon.isSome = true := Bool.and_elim_right (Bool.and_elim_left hline)
  exact cityById_isSome hmem hid hla hlo

/-- On a key that has a barangay→city line, `applyVisibilityRules` writes
the pure rule value, regardless of the previous shown-lines state. -/
lemma applyVis_brgy {D : Data} (en : EnabledState) (vs : VisState) {id : String}
    (h : hasBrgyLink D id = true) :
    (applyVisibilityRules D en vs).brgyLineVisible id = brgyVal D en id := by
  obtain ⟨b, hb⟩ := hasBrgyLink_find?_isSome h
  simp only [applyVisibilityRules, brgyVal, h, if_true, hb]

/-- On a key that has a city→province line, `applyVisibilityRules` writes
the pure rule value, regardless of the previous shown-lines state. -/
lemma applyVis_city {D : Data} (en : EnabledState) (vs : VisState) {id : String}
    (h : hasCityLink D id = true) :
    (applyVisibilityRules D en vs).cityLineVisible id = cityVal D en id := by
  obtain ⟨c, hc⟩ := hasCityLink_cityById_isSome h
  simp only [applyVisibilityRules, cityVal, h, if_true, hc]

/-- Example fixture: one barangay under one city under one province, all
with coordinates. -/
def exB : Barangay := ⟨some "B1", some "C1", "Poblacion", "Cebu City", some 10, some 11⟩

/-- Example fixture city. -/
def exC : City := ⟨some "C1", some "P1", "Cebu City", "Cebu", some 1, some 2⟩

/-- Example fixture province. -/
def exP : Province := ⟨some "P1", "Cebu", some 3, some 4⟩

/-- Example fixture dataset. -/
def exData : Data := ⟨[exB], [exC], [exP]⟩

/-- Example fixture enabled state: nothing was ever toggled (all default
to enabled). -/
def exEn : EnabledState := ⟨fun _ => none, fun _ => none, fun _ => none⟩

/-- Example fixture shown-lines state with every line hidden. -/
def exVs : VisState := ⟨fun _ => false, fun _ => false⟩

/-- Example fixture shown-lines state with every line shown. -/
def exVsAll : VisState := ⟨fun _ => true, fun _ => true⟩

lemma brgy_nonempty_cid {D : Data} {b : Barangay} {cid : String}
    (hline : brgyLineFromRow D.cities b = true) (hcid : b.city_id = some cid) :
    cid.isEmpty = false := by
  unfold brgyLineFromRow at hline
  simp only [hcid] at hline
  have h1 : (!cid.isEmpty) = true :=
    Bool.and_elim_left (Bool.and_elim_right hline)
  revert h1
  cases cid.isEmpty <;> simp

lemma city_nonempty_pid {D : Data} {c : City} {pid : String}
    (hline : cityLineFromRow D.provinces c = true) (hpid : c.province_id = some pid) :
    pid.isEmpty = false := by
  unfold cityLineFromRow at hline
  simp only [hpid] at hline
  have h1 : (!pid.isEmpty) = true :=
    Bool.and_elim_left (Bool.and_elim_right hline)
  revert h1
  cases pid.isEmpty <;> simp

/-- C1: for every barangay that has a barangay→city connector line (the
line-creation loop made a line for it, and it is the record the rule engine
finds for its id), the recomputed line visibility equals
`barangay.enabled && city.enabled`, for any assignment of enabled flags. -/
theorem brgy_line_visible_iff (D : Data) (en : EnabledState) (vs : VisState)
    (id cid : String) (b : Barangay)
    (hfind : D.barangays.find? (fun x => x.brgy_id == some id) = some b)
    (hline : brgyLineFromRow D.cities b = true)
    (hcid : b.city_id = some cid) :
    (applyVisibilityRules D en vs).brgyLineVisible id
      = (jsGetEnabled en.barangay id && jsGetEnabled en.city cid) := by
  have hmem : b ∈ D.barangays := List.mem_of_find?_eq_some hfind
  have hid : (b.brgy_id == some id) = true := by
    have h := List.find?_some hfind
    exact h
  have hlink : hasBrgyLink D id = true :=
    List.any_eq_true.mpr ⟨b, hmem, by rw [hid, hline]; rfl⟩
  have hne : cid.isEmpty = false := brgy_nonempty_cid hline hcid
  rw [applyVis_brgy en vs hlink]
  simp only [brgyVal, hfind]
  simp [brgyCityOn, hcid, hne]

/-- C1 witness: on the concrete fixture everything-enabled state, the B1
line is visible and equals the conjunction of the two flags. -/
theorem brgy_line_visible_iff_witness :
    (applyVisibilityRules exData exEn exVs).brgyLineVisible "B1"
      = (jsGetEnabled exEn.barangay "B1" && jsGetEnabled exEn.city "C1") :=
  brgy_line_visible_iff exData exEn exVs "B1" "C1" exB (by decide) (by decide)
    (by decide)

/-- C2: for every city that has a city→province connector line (it is the
`cityById` record for its id and the line-creation loop made a line for it),
the recomputed line visibility equals `city.enabled && province.enabled`,
for any assignment of enabled flags. -/
theorem city_line_visible_iff (D : Data) (en : EnabledState) (vs : VisState)
    (id pid : String) (c : City)
    (hById : cityById D.cities id = some c)
    (hline : cityLineFromRow D.provinces c = true)
    (hpid : c.province_id = some pid) :
    (applyVisibilityRules D en vs).cityLineVisible id
      = (jsGetEnabled en.city id && jsGetEnabled en.province pid) := by
  obtain ⟨hmem, hkey, hla, hlo⟩ := cityById_spec hById
  have hlink : hasCityLink D id = true :=
    List.any_eq_true.mpr ⟨c, hmem, by rw [hkey]; simp [hline]⟩
  have hne : pid.isEmpty = false := city_nonempty_pid hline hpid
  rw [applyVis_city en vs hlink]
  simp only [cityVal, hById]
  simp [cityProvOn, hpid, hne]

/-- C2 witness: the concrete C1→P1 line's visibility equals the conjunction
of the two flags. -/
theorem city_line_visible_iff_witness :
    (applyVisibilityRules exData exEn exVs).cityLineVisible "C1"
      = (jsGetEnabled exEn.city "C1" && jsGetEnabled exEn.province "P1") :=
  city_line_visible_iff exData exEn exVs "C1" "P1" exC (by decide) (by decide)
    (by decide)

/-- C3: changing only a province's enabled flag (in particular disabling
it) leaves the whole barangay→city visibility component of the recomputed
state unchanged — only city→province visibility may change. -/
theorem province_toggle_preserves_brgy_lines (D : Data) (en : EnabledState)
    (vs : VisState) (pid : String) (v : Bool) :
    (applyVisibilityRules D (setEnabled en .province pid v) vs).brgyLineVisible
      = (applyVisibilityRules D en vs).brgyLineVisible := rfl

/-- C9: the rule engine is a total function of the state (it is a plain
`def` here), and the two lookups are guarded: a line key whose barangay
record is missing, or whose `cityById` lookup misses, is skipped and its
previous visibility kept, rather than raising an error. -/
theorem applyVisibilityRules_guards (D : Data) (en : EnabledState)
    (vs : VisState) (id idc : String)
    (h1 : D.barangays.find? (fun x => x.brgy_id == some id) = none)
    (h2 : cityById D.cities idc = none) :
    (applyVisibilityRules D en vs).brgyLineVisible id = vs.brgyLineVisible id
      ∧ (applyVisibilityRules D en vs).cityLineVisible idc = vs.cityLineVisible idc := by
  constructor
  · simp only [applyVisibilityRules, h1]
    split <;> rfl
  · simp only [applyVisibilityRules, h2]
    split <;> rfl

/-- Example fixture: the empty dataset. -/
def exDataEmpty : Data := ⟨[], [], []⟩

/-- C9 witness: on the empty dataset both lookups miss and both line states
are left untouched. -/
theorem applyVisibilityRules_guards_witness :
    (applyVisibilityRules exDataEmpty exEn exVsAll).brgyLineVisible "B9"
        = exVsAll.brgyLineVisible "B9"
      ∧ (applyVisibilityRules exDataEmpty exEn exVsAll).cityLineVisible "C9"
        = exVsAll.cityLineVisible "C9" :=
  applyVisibilityRules_guards exDataEmpty exEn exVsAll "B9" "C9" (by decide) (by decide)

/-- The shown-lines state agrees, on every key that has a line, with the
pure rule value at the given enabled state. -/
def Synced (D : Data) (en : EnabledState) (vs : VisState) : Prop :=
  (∀ id, hasBrgyLink D id = true → vs.brgyLineVisible id = brgyVal D en id)
    ∧ (∀ id, hasCityLink D id = true → vs.cityLineVisible id = cityVal D en id)

lemma synced_applyVis (D : Data) (en : EnabledState) (vs : VisState) :
    Synced D en (applyVisibilityRules D en vs) :=
  ⟨fun _ h => applyVis_brgy en vs h, fun _ h => applyVis_city en vs h⟩

lemma runToggles_fst (D : Data) :
    ∀ (ops : List Toggle) (en : EnabledState) (vs : VisState),
      (runToggles D en vs ops).1 = applyToggles en ops := by
  intro ops
  induction ops with
  | nil => intro en vs; rfl
  | cons t rest ih =>
    intro en vs
    simp only [runToggles]
    exact ih _ _

lemma runToggles_synced (D : Data) :
    ∀ (ops : List Toggle) (en : EnabledState) (vs : VisState),
      Synced D en vs → Synced D (applyToggles en ops) (runToggles D en vs ops).2 := by
  intro ops
  induction ops with
  | nil => intro en vs h; exact h
  | cons t rest ih =>
    intro en vs _
    exact ih _ _ (synced_applyVis D (applyToggle en t) vs)

lemma brgyCityOn_congr {en en' : EnabledState}
    (hc : ∀ i, jsGetEnabled en.city i = jsGetEnabled en'.city i) (b : Barangay) :
    brgyCityOn en b = brgyCityOn en' b := by
  unfold brgyCityOn
  cases b.city_id with
  | none => rfl
  | some cid =>
    show (if cid.isEmpty = true then true else jsGetEnabled en.city cid)
      = (if cid.isEmpty = true then true else jsGetEnabled en'.city cid)
    rw [hc cid]

lemma cityProvOn_congr {en en' : EnabledState}
    (hp : ∀ i, jsGetEnabled en.province i = jsGetEnabled en'.province i) (c : City) :
    cityProvOn en c = cityProvOn en' c := by
  unfold cityProvOn
  cases c.province_id with
  | none => rfl
  | some pid =>
    show (if pid.isEmpty = true then true else jsGetEnabled en.province pid)
      = (if pid.isEmpty = true then true else jsGetEnabled en'.province pid)
    rw [hp pid]

lemma brgyVal_congr (D : Data) {en en' : EnabledState}
    (hb : ∀ i, jsGetEnabled en.barangay i = jsGetEnabled en'.barangay i)
    (hc : ∀ i, jsGetEnabled en.city i = jsGetEnabled en'.city i) (id : String) :
    brgyVal D en id = brgyVal D en' id := by
  unfold brgyVal
  cases hf : D.barangays.find? (fun x => x.brgy_id == some id) with
  | none => rfl
  | some b =>
    show (jsGetEnabled en.barangay id && brgyCityOn en b)
      = (jsGetEnabled en'.barangay id && brgyCityOn en' b)
    rw [hb id, brgyCityOn_congr hc b]

lemma cityVal_congr (D : Data) {en en' : EnabledState}
    (hc : ∀ i, jsGetEnabled en.city i = jsGetEnabled en'.city i)
    (hp : ∀ i, jsGetEnabled en.province i = jsGetEnabled en'.province i) (id : String) :
    cityVal D en id = cityVal D en' id := by
  unfold cityVal
  cases hf : cityById D.cities id with
  | none => rfl
  | some c =>
    show (jsGetEnabled en.city id && cityProvOn en c)
      = (jsGetEnabled en'.city id && cityProvOn en' c)
    rw [hc id, cityProvOn_congr hp c]

/-- C5: line visibility after a run of checkbox events depends only on the
final enabled-flag state, never on the order of events or on the shown-lines
state the run started from: two runs from the same initial flags that end in
the same flag assignment show exactly the same lines. -/
theorem visibility_depends_only_on_final_flags (D : Data) (en0 : EnabledState)
    (vs vs' : VisState) (ops1 ops2 : List Toggle) (id : String)
    (hstate : applyToggles en0 ops1 = applyToggles en0 ops2) :
    (hasBrgyLink D id = true →
      ((runToggles D en0 (applyVisibilityRules D en0 vs) ops1).2).brgyLineVisible id
        = ((runToggles D en0 (applyVisibilityRules D en0 vs') ops2).2).brgyLineVisible id)
    ∧ (hasCityLink D id = true →
      ((runToggles D en0 (applyVisibilityRules D en0 vs) ops1).2).cityLineVisible id
        = ((runToggles D en0 (applyVisibilityRules D en0 vs') ops2).2).cityLineVisible id) := by
  have h1 := runToggles_synced D ops1 en0 _ (synced_applyVis D en0 vs)
  have h2 := runToggles_synced D ops2 en0 _ (synced_applyVis D en0 vs')
  constructor
  · intro hl
    rw [h1.1 id hl, h2.1 id hl, hstate]
  · intro hl
    rw [h1.2 id hl, h2.2 id hl, hstate]

/-- Example fixture: disable city C1, then province P1. -/
def exOpsA : List Toggle := [⟨.city, "C1", false⟩, ⟨.province, "P1", false⟩]

/-- Example fixture: the same two checkbox events in the other order. -/
def exOpsB : List Toggle := [⟨.province, "P1", false⟩, ⟨.city, "C1", false⟩]

/-- C5 witness: on the fixture, disabling C1 then P1 and disabling P1 then
C1 — starting from different shown-lines states — leave both the B1 line
and the C1 line in identical states. -/
theorem visibility_depends_only_on_final_flags_witness :
    (((runToggles exData exEn (applyVisibilityRules exData exEn exVs) exOpsA).2).brgyLineVisible "B1"
        = ((runToggles exData exEn (applyVisibilityRules exData exEn exVsAll) exOpsB).2).brgyLineVisible "B1")
    ∧ (((runToggles exData exEn (applyVisibilityRules exData exEn exVs) exOpsA).2).cityLineVisible "C1"
        = ((runToggles exData exEn (applyVisibilityRules exData exEn exVsAll) exOpsB).2).cityLineVisible "C1") :=
  ⟨(visibility_depends_only_on_final_flags exData exEn exVs exVsAll exOpsA exOpsB
      "B1" rfl).1 (by decide),
   (visibility_depends_only_on_final_flags exData exEn exVs exVsAll exOpsA exOpsB
      "C1" rfl).2 (by decide)⟩

lemma jsGetEnabled_toggle_twice {m : String → Option Bool} {id : String}
    (h : jsGetEnabled m id = true) (i : String) :
    jsGetEnabled
      (fun j => if j = id then some true else if j = id then some false else m j) i
      = jsGetEnabled m i := by
  unfold jsGetEnabled
  by_cases hi : i = id
  · simp only [if_pos hi]
    unfold jsGetEnabled at h
    rw [hi, h]
    rfl
  · simp only [if_neg hi]

/-- C6: unchecking a checked node and checking it again returns every
connector line to the visibility it had before the first click (each click
reruns the rule engine on the updated flags). -/
theorem toggle_twice_roundtrip (D : Data) (en : EnabledState) (vs : VisState)
    (k : NodeKind) (id lid : String)
    (h : getEnabled en k id = true) :
    (hasBrgyLink D lid = true →
      (applyVisibilityRules D (setEnabled (setEnabled en k id false) k id true)
          (applyVisibilityRules D (setEnabled en k id false)
            (applyVisibilityRules D en vs))).brgyLineVisible lid
        = (applyVisibilityRules D en vs).brgyLineVisible lid)
    ∧ (hasCityLink D lid = true →
      (applyVisibilityRules D (setEnabled (setEnabled en k id false) k id true)
          (applyVisibilityRules D (setEnabled en k id false)
            (applyVisibilityRules D en vs))).cityLineVisible lid
        = (applyVisibilityRules D en vs).cityLineVisible lid) := by
  have hb : ∀ i,
      jsGetEnabled (setEnabled (setEnabled en k id false) k id true).barangay i
        = jsGetEnabled en.barangay i := by
    cases k with
    | barangay => intro i; exact jsGetEnabled_toggle_twice h i
    | city => intro i; rfl
    | province => intro i; rfl
  have hc : ∀ i,
      jsGetEnabled (setEnabled (setEnabled en k id false) k id true).city i
        = jsGetEnabled en.city i := by
    cases k with
    | barangay => intro i; rfl
    | city => intro i; exact jsGetEnabled_toggle_twice h i
    | province => intro i; rfl
  have hp : ∀ i,
      jsGetEnabled (setEnabled (setEnabled en k id false) k id true).province i
        = jsGetEnabled en.province i := by
    cases k with
    | barangay => intro i; rfl
    | city => intro i; rfl
    | province => intro i; exact jsGetEnabled_toggle_twice h i
  have s0 := synced_applyVis D en vs
  have s2 := synced_applyVis D (setEnabled (setEnabled en k id false) k id true)
    (applyVisibilityRules D (setEnabled en k id false) (applyVisibilityRules D en vs))
  constructor
  · intro hl
    rw [s2.1 lid hl, s0.1 lid hl]
    exact brgyVal_congr D hb hc lid
  · intro hl
    rw [s2.2 lid hl, s0.2 lid hl]
    exact cityVal_congr D hc hp lid

/-- C6 witness: on the fixture, unchecking city C1 and rechecking it
restores both the B1 barangay line and the C1 city line. -/
theorem toggle_twice_roundtrip_witness :
    ((applyVisibilityRules exData
          (setEnabled (setEnabled exEn .city "C1" false) .city "C1" true)
          (applyVisibilityRules exData (setEnabled exEn .city "C1" false)
            (applyVisibilityRules exData exEn exVs))).brgyLineVisible "B1"
        = (applyVisibilityRules exData exEn exVs).brgyLineVisible "B1")
    ∧ ((applyVisibilityRules exData
          (setEnabled (setEnabled exEn .city "C1" false) .city "C1" true)
          (applyVisibilityRules exData (setEnabled exEn .city "C1" false)
            (applyVisibilityRules exData exEn exVs))).cityLineVisible "C1"
        = (applyVisibilityRules exData exEn exVs).cityLineVisible "C1") :=
  ⟨(toggle_twice_roundtrip exData exEn exVs .city "C1" "B1" (by decide)).1 (by decide),
   (toggle_twice_roundtrip exData exEn exVs .city "C1" "C1" (by decide)).2 (by decide)⟩

/-- Example fixture enabled state with every node explicitly disabled. -/
def exEnOff : EnabledState :=
  ⟨fun _ => some false, fun _ => some false, fun _ => some false⟩

/-- C7 counterexample: two disabled nodes of different kinds do not share
one greyed-out icon — a disabled barangay gets `brgyIconDisabled` while a
disabled city gets `disabledAwesome`. -/
theorem marker_icon_not_shared_counterexample :
    updateMarkerIcon exEnOff .barangay "B1" = Icon.brgyIconDisabled
      ∧ updateMarkerIcon exEnOff .city "C1" = Icon.disabledAwesome
      ∧ Icon.brgyIconDisabled ≠ Icon.disabledAwesome := by
  refine ⟨rfl, rfl, ?_⟩
  intro h
  cases h

/-- C7 amended: each marker's icon is a pure function of that node's own
enabled flag alone — enabled gives the kind's normal icon, disabled gives
the kind's greyed-out icon; cities and provinces share the grey
`disabledAwesome` icon, while barangays have their own grey variant. -/
theorem marker_icon_pure_function_of_own_flag (en : EnabledState) (k : NodeKind)
    (id : String) :
    updateMarkerIcon en k id
        = (if getEnabled en k id then enabledIconOf k else disabledIconOf k)
      ∧ disabledIconOf .province = disabledIconOf .city := by
  constructor
  · cases k <;> rfl
  · rfl

/-- Example fixture: a barangay row with valid ids but an absent latitude
cell. -/
def exRowBNoCoords : RawBarangayRow :=
  ⟨some "B1", some "Poblacion", none, some "10", some "Cebu City", some "C1"⟩

/-- C4 counterexample: a barangay row lacking coordinates is NOT kept in the
hierarchy — it is dropped from the working set by the barangay filter, so
the checkbox tree grouping for its city is empty. -/
theorem node_without_coords_counterexample :
    (normalizeBarangay exRowBNoCoords).lat = none
      ∧ normalizeBarangay exRowBNoCoords ∉ barangaysAll [exRowBNoCoords]
      ∧ barangaysByCity (barangaysAll [exRowBNoCoords]) "C1" = [] := by decide

/-- C4 amended: a city or province lacking coordinates is kept in the
working set and in the checkbox tree (tree membership never looks at
coordinates) but produces no map marker and no connector line (it creates
no city→province line and is never the target of a lookup that creates a
line); a barangay lacking coordinates is excluded from the working set
entirely. -/
theorem node_without_coords_amended (rb : List RawBarangayRow)
    (rc : List RawCityRow) (rp : List RawProvinceRow)
    (b : Barangay) (c : City) (p : Province)
    (hb : b.lat = none ∨ b.lon = none)
    (hcm : c ∈ citiesAll rc) (hcc : c.lat = none ∨ c.lon = none)
    (hpm : p ∈ provincesAll rp) (hpc : p.lat = none ∨ p.lon = none) :
    b ∉ barangaysAll rb
      ∧ c ∈ treeCitiesUnder ⟨barangaysAll rb, citiesAll rc, provincesAll rp⟩ c.province_id
      ∧ c ∉ cityMarkerRows (citiesAll rc)
      ∧ cityLineFromRow (provincesAll rp) c = false
      ∧ (∀ i, cityById (citiesAll rc) i ≠ some c)
      ∧ p ∉ provinceMarkerRows (provincesAll rp)
      ∧ (∀ i, provinceById (provincesAll rp) i ≠ some p)
      ∧ p ∈ provincesAll rp := by
  refine ⟨?_, ?_, ?_, ?_, ?_, ?_, ?_, hpm⟩
  · intro hmem
    have hpred := (List.mem_filter.mp hmem).2
    rcases hb with h | h <;> rw [h] at hpred <;> simp [numTruthy] at hpred
  · exact List.mem_filter.mpr ⟨hcm, by simp [treeCitiesUnder]⟩
  · intro hmem
    have hpred := (List.mem_filter.mp hmem).2
    rcases hcc with h | h <;> rw [h] at hpred <;> simp at hpred
  · rcases hcc with h | h <;> simp [cityLineFromRow, h]
  · intro i hlook
    obtain ⟨_, _, hla, hlo⟩ := cityById_spec hlook
    rcases hcc with h | h
    · rw [h] at hla; cases hla
    · rw [h] at hlo; cases hlo
  · intro hmem
    have hpred := (List.mem_filter.mp hmem).2
    rcases hpc with h | h <;> rw [h] at hpred <;> simp at hpred
  · intro i hlook
    obtain ⟨_, _, hla, hlo⟩ := provinceById_spec hlook
    rcases hpc with h | h
    · rw [h] at hla; cases hla
    · rw [h] at hlo; cases hlo

/-- Example fixture: a city row with a valid id whose latitude cell does
not parse. -/
def exRowCNoCoords : RawCityRow :=
  ⟨some "Cebu City", some "C1", some "x", some "2", some "Cebu", some "P1"⟩

/-- Example fixture: a province row with a valid id and absent coordinate
cells. -/
def exRowPNoCoords : RawProvinceRow := ⟨some "Cebu", some "P1", none, none⟩

/-- Example fixture: a coordinate-less barangay record. -/
def exBNoCoords : Barangay := ⟨some "B1", some "C1", "Poblacion", "Cebu City", none, some 11⟩

/-- C4 amended witness: on the concrete coordinate-less rows, the barangay
is excluded while the city and province stay in the working set and tree
with no marker and no line. -/
theorem node_without_coords_amended_witness :
    exBNoCoords ∉ barangaysAll [exRowBNoCoords]
      ∧ normalizeCity exRowCNoCoords ∈
          treeCitiesUnder
            ⟨barangaysAll [exRowBNoCoords], citiesAll [exRowCNoCoords],
              provincesAll [exRowPNoCoords]⟩
            (normalizeCity exRowCNoCoords).province_id
      ∧ normalizeCity exRowCNoCoords ∉ cityMarkerRows (citiesAll [exRowCNoCoords])
      ∧ cityLineFromRow (provincesAll [exRowPNoCoords]) (normalizeCity exRowCNoCoords) = false
      ∧ cityById (citiesAll [exRowCNoCoords]) "C1" ≠ some (normalizeCity exRowCNoCoords)
      ∧ normalizeProvince exRowPNoCoords ∉ provinceMarkerRows (provincesAll [exRowPNoCoords])
      ∧ provinceById (provincesAll [exRowPNoCoords]) "P1" ≠ some (normalizeProvince exRowPNoCoords)
      ∧ normalizeProvince exRowPNoCoords ∈ provincesAll [exRowPNoCoords] := by
  have h := node_without_coords_amended [exRowBNoCoords] [exRowCNoCoords]
    [exRowPNoCoords] exBNoCoords (normalizeCity exRowCNoCoords)
    (normalizeProvince exRowPNoCoords) (by decide) (by decide) (by decide)
    (by decide) (by decide)
  exact ⟨h.1, h.2.1, h.2.2.1, h.2.2.2.1, h.2.2.2.2.1 "C1", h.2.2.2.2.2.1,
    h.2.2.2.2.2.2.1 "P1", h.2.2.2.2.2.2.2⟩

/-- C8: normalization stores the whitespace-trimmed identifier and name of
every row (identifiers additionally become `null` when trimmed empty), and
a numeric cell whose `Number` conversion is NaN is stored as `null`. -/
theorem normalization_trims_and_nulls (rb : RawBarangayRow) (rc : RawCityRow)
    (rp : RawProvinceRow) (x : Option String)
    (hx : jsToNumber x = JsNum.nan) :
    ((normalizeBarangay rb).barangay = jsTrim (rb.barangay.getD "")
        ∧ (normalizeBarangay rb).city = jsTrim (rb.city.getD "")
        ∧ (normalizeBarangay rb).brgy_id
            = (if (jsTrim (rb.brgy_id.getD "")).isEmpty then none
               else some (jsTrim (rb.brgy_id.getD "")))
        ∧ (normalizeBarangay rb).city_id
            = (if (jsTrim (rb.city_id.getD "")).isEmpty then none
               else some (jsTrim (rb.city_id.getD ""))))
      ∧ ((normalizeCity rc).city = jsTrim (rc.city.getD "")
        ∧ (normalizeCity rc).province = jsTrim (rc.province.getD "")
        ∧ (normalizeCity rc).city_id
            = (if (jsTrim (rc.city_id.getD "")).isEmpty then none
               else some (jsTrim (rc.city_id.getD "")))
        ∧ (normalizeCity rc).province_id
            = (if (jsTrim (rc.province_id.getD "")).isEmpty then none
               else some (jsTrim (rc.province_id.getD ""))))
      ∧ ((normalizeProvince rp).province = jsTrim (rp.province.getD "")
        ∧ (normalizeProvince rp).province_id
            = (if (jsTrim (rp.province_id.getD "")).isEmpty then none
               else some (jsTrim (rp.province_id.getD ""))))
      ∧ toNum x = none := by
  refine ⟨⟨rfl, rfl, rfl, rfl⟩, ⟨rfl, rfl, rfl, rfl⟩, ⟨rfl, rfl⟩, ?_⟩
  unfold toNum
  rw [hx]

/-- C8 witness: the cell "abc" fails `Number` conversion and is stored as
`null`. -/
theorem normalization_trims_and_nulls_witness :
    jsToNumber (some "abc") = JsNum.nan ∧ toNum (some "abc") = none :=
  ⟨by decide,
   (normalization_trims_and_nulls exRowBNoCoords exRowCNoCoords exRowPNoCoords
      (some "abc") (by decide)).2.2.2⟩

lemma numTruthy_ne {o : Option Rat} (h : numTruthy o = true) :
    o ≠ some 0 ∧ o ≠ none := by
  cases o with
  | none => cases h
  | some q =>
    constructor
    · intro he
      have hq : q = 0 := Option.some.inj he
      rw [hq] at h
      cases h
    · intro he
      cases he

/-- C10: every barangay in the working set has coordinates that are present
and nonzero — rows whose parsed latitude or longitude is `0` (including an
empty coordinate cell, which `Number` parses to `0`) or absent are excluded
entirely by the truthiness filter; city and province rows are kept whenever
their id is truthy, with no coordinate condition. -/
theorem zero_coordinate_barangays_excluded (rows : List RawBarangayRow)
    (b : Barangay) (rcs : List RawCityRow) (rc : RawCityRow)
    (rps : List RawProvinceRow) (rp : RawProvinceRow)
    (hb : b ∈ barangaysAll rows)
    (hc : rc ∈ rcs) (hct : idTruthy (normalizeCity rc).city_id = true)
    (hp : rp ∈ rps) (hpt : idTruthy (normalizeProvince rp).province_id = true) :
    (b.lat ≠ some 0 ∧ b.lat ≠ none ∧ b.lon ≠ some 0 ∧ b.lon ≠ none)
      ∧ toNum (some "") = some 0
      ∧ normalizeCity rc ∈ citiesAll rcs
      ∧ normalizeProvince rp ∈ provincesAll rps := by
  refine ⟨?_, by decide, ?_, ?_⟩
  · have hpred := (List.mem_filter.mp hb).2
    have hlon : numTruthy b.lon = true := Bool.and_elim_right hpred
    have hlat : numTruthy b.lat = true :=
      Bool.and_elim_right (Bool.and_elim_left hpred)
    obtain ⟨h1, h2⟩ := numTruthy_ne hlat
    obtain ⟨h3, h4⟩ := numTruthy_ne hlon
    exact ⟨h1, h2, h3, h4⟩
  · exact List.mem_filter.mpr ⟨List.mem_map.mpr ⟨rc, hc, rfl⟩, hct⟩
  · exact List.mem_filter.mpr ⟨List.mem_map.mpr ⟨rp, hp, rfl⟩, hpt⟩

/-- Example fixture: a fully valid barangay row. -/
def exRowBOk : RawBarangayRow :=
  ⟨some "B1", some "Poblacion", some "10", some "11", some "Cebu City", some "C1"⟩

/-- C10 witness: the concrete working-set barangay has nonzero present
coordinates, the empty cell parses to 0, and the coordinate-less city and
province rows are still kept. -/
theorem zero_coordinate_barangays_excluded_witness :
    (normalizeBarangay exRowBOk).lat ≠ some 0
      ∧ toNum (some "") = some 0
      ∧ normalizeCity exRowCNoCoords ∈ citiesAll [exRowCNoCoords]
      ∧ normalizeProvince exRowPNoCoords ∈ provincesAll [exRowPNoCoords] := by
  have h := zero_coordinate_barangays_excluded [exRowBOk] (normalizeBarangay exRowBOk)
    [exRowCNoCoords] exRowCNoCoords [exRowPNoCoords] exRowPNoCoords
    (by decide) (by decide) (by decide) (by decide) (by decide)
  exact ⟨h.1.1, h.2.1, h.2.2.1, h.2.2.2⟩

end Uplink
